import Mathlib

/-!
Shallow embedding of `src/app.py` (AI Product Description Generator).

The program is a single-file Streamlit app.  Its logic surface is:
  * an attribute parsing loop (app.py lines 126-130),
  * `get_system_prompt` (lines 47-55),
  * `generate_description` (lines 57-78),
  * `evaluate_quality` (lines 81-106),
  * the startup credential check (lines 28-37).

Python string primitives (`str.split`, `str.strip`, `in`) are modelled by
structurally recursive functions on `List Char` so that every definition
evaluates inside the kernel.  The remote chat-completion transport and the
Python `json.loads` standard-library parser are external collaborators; they
are modelled as explicit function parameters.
-/

/-- Models membership in Python's default `str.strip` whitespace set
(space, tab, newline, carriage return, vertical tab, form feed). -/
def wsChar (c : Char) : Bool :=
  c = ' ' || c = '\t' || c = '\n' || c = '\r' || c = '\x0b' || c = '\x0c'

/-- Strip `wsChar` characters from both ends of a character list.
Models Python `str.strip()` at the character-list level. -/
def stripList (l : List Char) : List Char :=
  ((l.dropWhile wsChar).reverse.dropWhile wsChar).reverse

/-- Models Python `str.strip()`. -/
def pyStrip (s : String) : String :=
  String.mk (stripList s.data)

/-- Auxiliary accumulator for splitting on a separator character. -/
def splitOnCharAux (c : Char) : List Char → List Char → List (List Char)
  | [], acc => [acc.reverse]
  | a :: rest, acc =>
    if a = c then acc.reverse :: splitOnCharAux c rest []
    else splitOnCharAux c rest (a :: acc)

/-- Split a character list on every occurrence of `c`.
Models Python `str.split(sep)` for a one-character separator:
`splitOnChar c [] = [[]]`, matching `"".split(sep) == ['']`. -/
def splitOnChar (c : Char) (l : List Char) : List (List Char) :=
  splitOnCharAux c l []

/-- Models Python's `c in line` membership test for a single character. -/
def containsChar (c : Char) : List Char → Bool
  | [] => false
  | a :: rest => a = c || containsChar c rest

/-- The characters strictly before the first occurrence of `c`
(the whole list when `c` is absent).  Together with `afterChar` this models
Python `line.split(c, 1)`. -/
def beforeChar (c : Char) : List Char → List Char
  | [] => []
  | a :: rest => if a = c then [] else a :: beforeChar c rest

/-- The characters strictly after the first occurrence of `c`
(empty when `c` is absent). -/
def afterChar (c : Char) : List Char → List Char
  | [] => []
  | a :: rest => if a = c then rest else afterChar c rest

/-- Models Python `sep.join(xs)`. -/
def joinWith (sep : String) : List String → String
  | [] => ""
  | [s] => s
  | s :: rest => s ++ sep ++ joinWith sep rest

/-- Boolean list-prefix test (building block for the substring tests below). -/
def isPrefixB : List Char → List Char → Bool
  | [], _ => true
  | _ :: _, [] => false
  | a :: as, b :: bs => a == b && isPrefixB as bs

/-- Boolean contiguous-sublist test. -/
def isInfixB (pat : List Char) : List Char → Bool
  | [] => pat.isEmpty
  | b :: bs => isPrefixB pat (b :: bs) || isInfixB pat bs

/-- Boolean list-suffix test. -/
def isSuffixB (pat l : List Char) : Bool :=
  isPrefixB pat.reverse l.reverse

/-- `strContains s pat` models Python's `pat in s` substring test. -/
def strContains (s pat : String) : Bool :=
  isInfixB pat.data s.data

/-- `strEndsWith s pat` models Python's `s.endswith(pat)`. -/
def strEndsWith (s pat : String) : Bool :=
  isSuffixB pat.data s.data

/-! ### Attribute parser (app.py lines 126-130)

```python
attributes = {}
for line in attr_input.split('\n'):
    if ':' in line:
        key, val = line.split(':', 1)
        attributes[key.strip()] = val.strip()
```

The Python `dict` is modelled as an insertion-ordered association list with
the update-in-place semantics of `d[k] = v`. -/

/-- Models Python `d[k] = v` on an insertion-ordered dictionary: if the key is
present its value is replaced in place, otherwise the pair is appended. -/
def dictInsert : List (String × String) → String → String → List (String × String)
  | [], k, v => [(k, v)]
  | (k', v') :: d, k, v =>
    if k' = k then (k, v) :: d else (k', v') :: dictInsert d k v

/-- Models Python `d[q]`-style lookup (first entry with the given key). -/
def lookupKey (q : String) : List (String × String) → Option String
  | [] => none
  | (k, v) :: d => if k = q then some v else lookupKey q d

/-- The `(key.strip(), val.strip())` pair produced from one line by
`key, val = line.split(':', 1)` followed by the two `.strip()` calls. -/
def lineEntry (line : String) : String × String :=
  (pyStrip (String.mk (beforeChar ':' line.data)),
   pyStrip (String.mk (afterChar ':' line.data)))

/-- One iteration of the parsing loop body (app.py lines 128-130). -/
def parseStep (d : List (String × String)) (line : String) : List (String × String) :=
  if containsChar ':' line.data then
    dictInsert d (lineEntry line).1 (lineEntry line).2
  else d

/-- Models `attr_input.split('\n')`. -/
def pySplitLines (text : String) : List String :=
  (splitOnChar '\n' text.data).map String.mk

/-- The attribute parsing loop of app.py lines 126-130. -/
def parse_attributes (text : String) : List (String × String) :=
  (pySplitLines text).foldl parseStep []

/-! ### Prompt builder (app.py lines 47-55) -/

/-- app.py line 49. -/
def electronics_prompt : String :=
  "You are a tech copywriter. Focus on specifications, performance, and compatibility."

/-- app.py line 50. -/
def fashion_prompt : String :=
  "You are a fashion stylist. Focus on fabric feel, fit, and occasion."

/-- app.py line 51. -/
def home_kitchen_prompt : String :=
  "You are an interior designer. Focus on aesthetics, durability, and usage."

/-- app.py line 52. -/
def general_prompt : String :=
  "You are a professional copywriter. Focus on benefits and value proposition."

/-- The `base_prompts` dictionary of `get_system_prompt` (app.py lines 48-53). -/
def base_prompts : List (String × String) :=
  [("Electronics", electronics_prompt),
   ("Fashion", fashion_prompt),
   ("Home & Kitchen", home_kitchen_prompt),
   ("General", general_prompt)]

/-- app.py lines 47-55: `base_prompts.get(category, base_prompts["General"])`
followed by the tone suffix f-string. -/
def get_system_prompt (category tone : String) : String :=
  (lookupKey category base_prompts).getD general_prompt ++
    " Write in a " ++ tone ++ " tone. Do not invent features not listed."

/-! ### Product record (app.py lines 40-44)

```python
class ProductInput(BaseModel):
    name: str
    category: str
    attributes: Dict[str, str]
    tone: Optional[str] = "Professional"
```

The `attributes` dict is modelled as an insertion-ordered association list;
`tone` defaults to `"Professional"` at the pydantic level but every
construction in the script passes it explicitly, so it is a plain `String`
here. -/

structure ProductInput where
  name : String
  category : String
  attributes : List (String × String)
  tone : String

/-- The `specs_text` / `user_message` f-strings of `generate_description`
(app.py lines 58-65), including the triple-quoted string's literal
indentation: only the first `specs_text` line sits behind the four-space
indent. -/
def gen_user_message (product : ProductInput) : String :=
  "\n    Product Name: " ++ product.name ++
  "\n    Category: " ++ product.category ++
  "\n    Features:\n    " ++
  joinWith "\n" (product.attributes.map (fun kv => "- " ++ kv.1 ++ ": " ++ kv.2)) ++
  "\n    "

/-- One chat-completion request as assembled by the script: model identifier,
`(role, content)` message list, optional sampling temperature (in tenths, so
`7` models Python's `0.7`), and whether `response_format` requests a JSON
object. -/
structure ChatRequest where
  model : String
  messages : List (String × String)
  temperature_tenths : Option Nat
  response_format_json : Bool

/-- The request issued by `generate_description` (app.py lines 68-75). -/
def generate_description_request (product : ProductInput) : ChatRequest :=
  { model := "llama-3.3-70b-versatile"
    messages := [("system", get_system_prompt product.category product.tone),
                 ("user", gen_user_message product)]
    temperature_tenths := some 7
    response_format_json := false }

/-- app.py lines 57-78.  `transport` models the external
`client.chat.completions.create` call on the request the function builds:
`Except.error e` is a raised exception whose `str(e)` is `e`, and
`Except.ok cs` is a successful response whose choices have message contents
`cs`.  `response.choices[0]` on an empty choice list raises an `IndexError`
inside the same `try`, whose `str` is `"list index out of range"`. -/
def generate_description (product : ProductInput)
    (transport : ChatRequest → Except String (List String)) : String :=
  match transport (generate_description_request product) with
  | Except.error e => "Error: " ++ e
  | Except.ok [] => "Error: " ++ "list index out of range"
  | Except.ok (c :: _) => c

/-! ### Evaluator client (app.py lines 81-106) -/

/-- Python values produced by `json.loads`: JSON data. -/
inductive Json where
  | null : Json
  | bool (b : Bool) : Json
  | num (n : Int) : Json
  | str (s : String) : Json
  | arr (elements : List Json) : Json
  | obj (fields : List (String × Json)) : Json

/-- First binding of a key in a JSON object's field list. -/
def jassoc (key : String) : List (String × Json) → Option Json
  | [] => none
  | (k, v) :: rest => if k = key then some v else jassoc key rest

/-- Models the Python `dict.get(key)` accesses the UI performs on the value
returned by `evaluate_quality` (app.py lines 151-158). -/
def jsonGet (j : Json) (key : String) : Option Json :=
  match j with
  | Json.obj fields => jassoc key fields
  | _ => none

/-- The fixed QA system prompt of `evaluate_quality` (app.py lines 82-88),
with the triple-quoted string's literal indentation. -/
def evaluation_system_prompt : String :=
  "\n    You are a Quality Assurance AI. Compare the input data to the generated description.\n    Return a valid JSON object with these keys:\n    - \"score\": (integer 1-10)\n    - \"consistency_check\": (string) \"Pass\" if all input facts are present, else \"Fail\".\n    - \"tone_feedback\": (string) Brief comment on the tone.\n    "

/-- The dictionary synthesized by the `except` branch of `evaluate_quality`
(app.py line 106). -/
def evaluation_error_result (detail : String) : Json :=
  Json.obj [("score", Json.num 0),
            ("consistency_check", Json.str "Error"),
            ("tone_feedback", Json.str detail)]

/-- app.py lines 81-106.  `transport` models the outcome of the external
`client.chat.completions.create` call (the request it is applied to embeds
`json.dumps(input_data)` and `generated_text`; no claim depends on that
serialized form).  `jsonLoads` models the Python standard-library
`json.loads`: `Except.error e` is a raised `JSONDecodeError` with `str(e) = e`.
Both failure points sit inside the same `try`, so either produces the
synthesized error dictionary. -/
def evaluate_quality (input_data : ProductInput) (generated_text : String)
    (transport : Except String (List String))
    (jsonLoads : String → Except String Json) : Json :=
  match transport with
  | Except.error e => evaluation_error_result e
  | Except.ok [] => evaluation_error_result "list index out of range"
  | Except.ok (body :: _) =>
    match jsonLoads body with
    | Except.error e => evaluation_error_result e
    | Except.ok j => j

/-! ### Startup credential check (app.py lines 28-37)

```python
api_key = os.environ.get("GROQ_API_KEY")
if not api_key:
    st.error("...")
    st.stop()
client = OpenAI(base_url=..., api_key=api_key)
```

`st.stop()` halts the script run, so the `OpenAI` client is only constructed
when the key is present and non-empty (Python truthiness), and both
completion calls live in the `if generate_btn:` block further down. -/

/-- The message shown by `st.error` on app.py line 31. -/
def missing_key_error : String :=
  "🚨 GROQ_API_KEY is missing! Please create a .env file with your key."

/-- Observable outcome of one script run up to and including client setup. -/
structure StartupResult where
  errorShown : Option String
  halted : Bool
  clientKey : Option String

/-- app.py lines 28-37: `os.environ.get` yields `none` when the variable is
absent; `not api_key` is Python truthiness, so the empty string also halts. -/
def script_startup (env_key : Option String) : StartupResult :=
  match env_key with
  | none => { errorShown := some missing_key_error, halted := true, clientKey := none }
  | some k =>
    if k = "" then
      { errorShown := some missing_key_error, halted := true, clientKey := none }
    else
      { errorShown := none, halted := false, clientKey := some k }

/-- Number of completion requests a script run issues: zero when startup
halted, otherwise one `generate_description` call plus one `evaluate_quality`
call when the generate button was pressed (app.py lines 124-149). -/
def completion_requests_issued (env_key : Option String) (generate_btn : Bool) : Nat :=
  if (script_startup env_key).halted then 0
  else if generate_btn then 2 else 0

/-- The default sidebar record of app.py lines 113-120, as parsed on
submission: the end-to-end scenario's product record. -/
def sonyProduct : ProductInput :=
  { name := "Sony WH-1000XM5"
    category := "Electronics"
    attributes := [("Color", "Midnight Blue"),
                   ("Noise Cancellation", "Active"),
                   ("Battery", "30 Hours")]
    tone := "Professional" }

/-- Follows the spec's words (claim C1): the value of the *last* entry in a
list of parsed `(key, value)` pairs whose key equals `q`, if any.  Used to
state that duplicate keys retain only the last occurrence. -/
def specLastValue (q : String) : List (String × String) → Option String
  | [] => none
  | e :: rest =>
    match specLastValue q rest with
    | some w => some w
    | none => if e.1 = q then some e.2 else none

/-- Follows the spec's words (claim C5): the `consistency_check` field of an
evaluation result is one of the three strings "Pass", "Fail", "Error". -/
def consistency_range (j : Json) : Prop :=
  jsonGet j "consistency_check" = some (Json.str "Pass") ∨
  jsonGet j "consistency_check" = some (Json.str "Fail") ∨
  jsonGet j "consistency_check" = some (Json.str "Error")

/-! ## Lemmas about the attribute parser -/

theorem dictInsert_cons_pos (k v k' v' : String) (d : List (String × String))
    (h : k' = k) : dictInsert ((k', v') :: d) k v = (k, v) :: d := by
  simp [dictInsert, h]

theorem dictInsert_cons_neg (k v k' v' : String) (d : List (String × String))
    (h : ¬k' = k) : dictInsert ((k', v') :: d) k v = (k', v') :: dictInsert d k v := by
  simp [dictInsert, h]

theorem lookupKey_dictInsert (q k v : String) (d : List (String × String)) :
    lookupKey q (dictInsert d k v) = if k = q then some v else lookupKey q d := by
  induction d with
  | nil => simp [dictInsert, lookupKey]
  | cons p d ih =>
    obtain ⟨k', v'⟩ := p
    by_cases hk : k' = k
    · rw [dictInsert_cons_pos k v k' v' d hk]
      subst hk
      by_cases hq : k' = q <;> simp [lookupKey, hq]
    · rw [dictInsert_cons_neg k v k' v' d hk]
      by_cases hq : k' = q
      · subst hq
        have hkq : ¬k = k' := fun h => hk h.symm
        simp [lookupKey, hkq]
      · simp [lookupKey, hq, ih]

theorem mem_keys_dictInsert (q k v : String) (d : List (String × String)) :
    q ∈ (dictInsert d k v).map Prod.fst → (q ∈ d.map Prod.fst ∨ q = k) := by
  induction d with
  | nil =>
    intro h
    simp [dictInsert] at h
    exact Or.inr h
  | cons p d ih =>
    obtain ⟨k', v'⟩ := p
    intro h
    by_cases hk : k' = k
    · rw [dictInsert_cons_pos k v k' v' d hk] at h
      simp only [List.map_cons, List.mem_cons] at h ⊢
      rcases h with h | h
      · exact Or.inr h
      · exact Or.inl (Or.inr h)
    · rw [dictInsert_cons_neg k v k' v' d hk] at h
      simp only [List.map_cons, List.mem_cons] at h ⊢
      rcases h with h | h
      · exact Or.inl (Or.inl h)
      · rcases ih h with h | h
        · exact Or.inl (Or.inr h)
        · exact Or.inr h

theorem nodup_keys_dictInsert (k v : String) (d : List (String × String)) :
    (d.map Prod.fst).Nodup → ((dictInsert d k v).map Prod.fst).Nodup := by
  induction d with
  | nil => intro _; simp [dictInsert]
  | cons p d ih =>
    obtain ⟨k', v'⟩ := p
    intro h
    simp only [List.map_cons, List.nodup_cons] at h
    obtain ⟨hnotin, hnd⟩ := h
    by_cases hk : k' = k
    · rw [dictInsert_cons_pos k v k' v' d hk]
      subst hk
      simp only [List.map_cons, List.nodup_cons]
      exact ⟨hnotin, hnd⟩
    · rw [dictInsert_cons_neg k v k' v' d hk]
      simp only [List.map_cons, List.nodup_cons]
      refine ⟨fun hmem => ?_, ih hnd⟩
      rcases mem_keys_dictInsert k' k v d hmem with h | h
      · exact hnotin h
      · exact hk h

theorem mem_dictInsert (a b k v : String) (d : List (String × String)) :
    (a, b) ∈ dictInsert d k v → ((a, b) ∈ d ∨ (a = k ∧ b = v)) := by
  induction d with
  | nil =>
    intro h
    simp only [dictInsert, List.mem_singleton, Prod.mk.injEq] at h
    exact Or.inr h
  | cons p d ih =>
    obtain ⟨k', v'⟩ := p
    intro h
    by_cases hk : k' = k
    · rw [dictInsert_cons_pos k v k' v' d hk] at h
      rcases List.mem_cons.mp h with h | h
      · exact Or.inr ⟨congrArg Prod.fst h, congrArg Prod.snd h⟩
      · exact Or.inl (List.mem_cons_of_mem _ h)
    · rw [dictInsert_cons_neg k v k' v' d hk] at h
      rcases List.mem_cons.mp h with h | h
      · exact Or.inl (List.mem_cons.mpr (Or.inl h))
      · rcases ih h with h | h
        · exact Or.inl (List.mem_cons_of_mem _ h)
        · exact Or.inr h

theorem lookupKey_foldl_parseStep (lines : List String) :
    ∀ (d : List (String × String)) (q : String),
      lookupKey q (lines.foldl parseStep d) =
        match specLastValue q
            ((lines.filter (fun l => containsChar ':' l.data)).map lineEntry) with
        | some w => some w
        | none => lookupKey q d := by
  induction lines with
  | nil => intro d q; simp [specLastValue]
  | cons l ls ih =>
    intro d q
    by_cases hc : containsChar ':' l.data = true
    · have hf : (l :: ls).filter (fun l => containsChar ':' l.data)
          = l :: ls.filter (fun l => containsChar ':' l.data) := by
        simp [List.filter_cons, hc]
      have hstep : parseStep d l = dictInsert d (lineEntry l).1 (lineEntry l).2 := by
        simp [parseStep, hc]
      rw [List.foldl_cons, hstep, ih, hf, List.map_cons]
      cases hM : specLastValue q
          ((ls.filter (fun l => containsChar ':' l.data)).map lineEntry) with
      | some w => simp [specLastValue, hM]
      | none =>
        by_cases hq : (lineEntry l).1 = q
        · simp [specLastValue, hM, hq, lookupKey_dictInsert]
        · simp [specLastValue, hM, hq, lookupKey_dictInsert]
    · have hf : (l :: ls).filter (fun l => containsChar ':' l.data)
          = ls.filter (fun l => containsChar ':' l.data) := by
        simp [List.filter_cons, hc]
      have hstep : parseStep d l = d := by simp [parseStep, hc]
      rw [List.foldl_cons, hstep, ih, hf]

theorem nodup_keys_foldl_parseStep (lines : List String) :
    ∀ d : List (String × String), (d.map Prod.fst).Nodup →
      ((lines.foldl parseStep d).map Prod.fst).Nodup := by
  induction lines with
  | nil => intro d h; simpa using h
  | cons l ls ih =>
    intro d h
    simp only [List.foldl_cons]
    apply ih
    unfold parseStep
    split
    · exact nodup_keys_dictInsert _ _ _ h
    · exact h

/-! ## Lemmas about `pyStrip` -/

theorem stripList_eq_rdropWhile (l : List Char) :
    stripList l = List.rdropWhile wsChar (l.dropWhile wsChar) := rfl

theorem dropWhile_rdropWhile_dropWhile (l : List Char) :
    (List.rdropWhile wsChar (l.dropWhile wsChar)).dropWhile wsChar
      = List.rdropWhile wsChar (l.dropWhile wsChar) := by
  rcases hr : List.rdropWhile wsChar (l.dropWhile wsChar) with _ | ⟨a, t⟩
  · simp
  · have hpre : (a :: t : List Char) <+: l.dropWhile wsChar := by
      rw [← hr]; exact List.rdropWhile_prefix wsChar (l.dropWhile wsChar)
    obtain ⟨s, hs⟩ := hpre
    have h2 : l.dropWhile wsChar = a :: (t ++ s) := by rw [← hs]; simp
    have h3 := List.head?_dropWhile_not wsChar l
    rw [h2] at h3
    simp only [List.head?_cons] at h3
    simp [List.dropWhile_cons, h3]

theorem stripList_idem (l : List Char) : stripList (stripList l) = stripList l := by
  rw [stripList_eq_rdropWhile l, stripList_eq_rdropWhile, dropWhile_rdropWhile_dropWhile]
  exact List.rdropWhile_idempotent wsChar (l.dropWhile wsChar)

theorem pyStrip_idem (s : String) : pyStrip (pyStrip s) = pyStrip s :=
  congrArg String.mk (stripList_idem s.data)

theorem trimmed_foldl_parseStep (lines : List String) :
    ∀ d : List (String × String),
      (∀ kv ∈ d, pyStrip kv.1 = kv.1 ∧ pyStrip kv.2 = kv.2) →
      ∀ kv ∈ lines.foldl parseStep d, pyStrip kv.1 = kv.1 ∧ pyStrip kv.2 = kv.2 := by
  induction lines with
  | nil => intro d h; simpa using h
  | cons l ls ih =>
    intro d h
    simp only [List.foldl_cons]
    apply ih
    intro kv hkv
    unfold parseStep at hkv
    split at hkv
    · obtain ⟨a, b⟩ := kv
      rcases mem_dictInsert a b (lineEntry l).1 (lineEntry l).2 d hkv with hmem | ⟨ha, hb⟩
      · exact h _ hmem
      · subst ha
        subst hb
        exact ⟨pyStrip_idem _, pyStrip_idem _⟩
    · exact h _ hkv

theorem isPrefixB_append (l t : List Char) : isPrefixB l (l ++ t) = true := by
  induction l with
  | nil => simp [isPrefixB]
  | cons a as ih => simp [isPrefixB, ih]

/-! ## Claims -/

/-- Claim C1: for every multi-line attribute input, lines without a colon
contribute no entry; each colon line contributes exactly one entry whose key
is the whitespace-trimmed prefix before the first colon and whose value is
the whitespace-trimmed remainder (both packaged in `lineEntry`); when several
lines share a key only the last occurrence's value survives (`specLastValue`
over exactly the colon-containing lines); keys are unique in the result; and
the worked example yields Color=Red, Size=10 in. -/
theorem parse_attributes_spec :
    (∀ text q, lookupKey q (parse_attributes text) =
        specLastValue q
          (((pySplitLines text).filter (fun l => containsChar ':' l.data)).map lineEntry)) ∧
    (∀ text, ((parse_attributes text).map Prod.fst).Nodup) ∧
    parse_attributes "Color: Blue\nBattery\nSize: 10 in\nColor: Red"
      = [("Color", "Red"), ("Size", "10 in")] := by
  refine ⟨fun text q => ?_, fun text => ?_, by decide⟩
  · unfold parse_attributes
    rw [lookupKey_foldl_parseStep]
    cases h : specLastValue q
        (((pySplitLines text).filter (fun l => containsChar ':' l.data)).map lineEntry) <;>
      simp [lookupKey]
  · exact nodup_keys_foldl_parseStep (pySplitLines text) [] (by simp)

/-- Claim C2: whenever the evaluation completion request fails, or its
returned body fails to parse as JSON, `evaluate_quality` does not raise and
returns the synthesized error result: score 0, consistency_check "Error",
tone_feedback the failure detail string. -/
theorem evaluate_quality_failure_synthesis (input_data : ProductInput)
    (generated_text e body : String) (rest : List String)
    (jsonLoads : String → Except String Json) :
    (evaluate_quality input_data generated_text (Except.error e) jsonLoads
        = evaluation_error_result e) ∧
    (jsonLoads body = Except.error e →
      evaluate_quality input_data generated_text (Except.ok (body :: rest)) jsonLoads
        = evaluation_error_result e) ∧
    jsonGet (evaluation_error_result e) "score" = some (Json.num 0) ∧
    jsonGet (evaluation_error_result e) "consistency_check" = some (Json.str "Error") ∧
    jsonGet (evaluation_error_result e) "tone_feedback" = some (Json.str e) := by
  refine ⟨rfl, fun hp => ?_, rfl, rfl, rfl⟩
  simp [evaluate_quality, hp]

theorem evaluate_quality_failure_synthesis_witness :
    evaluate_quality sonyProduct "draft"
        (Except.ok ["not json"]) (fun _ => Except.error "Expecting value")
      = evaluation_error_result "Expecting value" :=
  (evaluate_quality_failure_synthesis sonyProduct "draft" "Expecting value" "not json" []
      (fun _ => Except.error "Expecting value")).2.1 rfl

/-- Claim C3: when the description completion request fails for any
request-level reason, `generate_description` does not raise and returns the
string "Error: " ++ detail, which begins with "Error: ". -/
theorem generate_description_failure (product : ProductInput)
    (transport : ChatRequest → Except String (List String)) (e : String)
    (h : transport (generate_description_request product) = Except.error e) :
    generate_description product transport = "Error: " ++ e ∧
    isPrefixB ("Error: ").data (generate_description product transport).data = true := by
  have h1 : generate_description product transport = "Error: " ++ e := by
    simp [generate_description, h]
  refine ⟨h1, ?_⟩
  rw [h1]
  have h2 : ("Error: " ++ e).data = ("Error: ").data ++ e.data := rfl
  rw [h2]
  exact isPrefixB_append _ _

theorem generate_description_failure_witness :
    generate_description sonyProduct (fun _ => Except.error "Connection error.")
        = "Error: " ++ "Connection error." ∧
    isPrefixB ("Error: ").data
        (generate_description sonyProduct (fun _ => Except.error "Connection error.")).data
      = true :=
  generate_description_failure sonyProduct (fun _ => Except.error "Connection error.")
    "Connection error." rfl

/-- Claim C4: under a mocked transport returning a fixed response,
`generate_description` returns exactly the first choice's message content,
and `evaluate_quality` returns exactly the structure obtained by JSON-parsing
the first choice's message content, with no transformation. -/
theorem clients_round_trip (product : ProductInput)
    (transport : ChatRequest → Except String (List String)) (c : String)
    (rest : List String)
    (h : transport (generate_description_request product) = Except.ok (c :: rest))
    (input_data : ProductInput) (generated_text body : String) (rest' : List String)
    (jsonLoads : String → Except String Json) (j : Json)
    (hp : jsonLoads body = Except.ok j) :
    generate_description product transport = c ∧
    evaluate_quality input_data generated_text (Except.ok (body :: rest')) jsonLoads = j := by
  constructor
  · simp [generate_description, h]
  · simp [evaluate_quality, hp]

theorem clients_round_trip_witness :
    generate_description sonyProduct (fun _ => Except.ok ["Great headphones."])
        = "Great headphones." ∧
    evaluate_quality sonyProduct "Great headphones."
        (Except.ok ["body"]) (fun _ => Except.ok (Json.obj [("score", Json.num 9)]))
      = Json.obj [("score", Json.num 9)] :=
  clients_round_trip sonyProduct (fun _ => Except.ok ["Great headphones."])
    "Great headphones." [] rfl sonyProduct "Great headphones." "body" []
    (fun _ => Except.ok (Json.obj [("score", Json.num 9)])) (Json.obj [("score", Json.num 9)]) rfl

/-- Claim C5 counterexample: the claim "the consistency_check field is always
one of Pass/Fail/Error" fails on the code.  With a transport response whose
body parses (as `json.loads` would for a service reply carrying
consistency_check "Maybe") to an object whose consistency_check is "Maybe",
`evaluate_quality` returns that object verbatim, so the field is none of the
three strings: the code never validates the parsed reply. -/
theorem evaluate_quality_consistency_range_counterexample :
    ¬consistency_range (evaluate_quality sonyProduct "draft" (Except.ok ["reply-body"])
        (fun _ => Except.ok (Json.obj [("score", Json.num 5),
          ("consistency_check", Json.str "Maybe"),
          ("tone_feedback", Json.str "fine")]))) := by
  intro h
  rcases h with h | h | h <;> simp [evaluate_quality, jsonGet, jassoc] at h

/-- Claim C5 (amended): whenever every successfully parsed reply body has a
consistency_check field equal to "Pass" or "Fail" (the schema the system
prompt instructs the remote service to follow), the consistency_check field
of the result of `evaluate_quality` is one of "Pass", "Fail", "Error"; the
code itself does not validate the parsed value. -/
theorem evaluate_quality_consistency_range (input_data : ProductInput)
    (generated_text : String) (transport : Except String (List String))
    (jsonLoads : String → Except String Json)
    (hschema : ∀ body j, jsonLoads body = Except.ok j →
      jsonGet j "consistency_check" = some (Json.str "Pass") ∨
      jsonGet j "consistency_check" = some (Json.str "Fail")) :
    consistency_range (evaluate_quality input_data generated_text transport jsonLoads) := by
  unfold consistency_range
  cases transport with
  | error e => exact Or.inr (Or.inr rfl)
  | ok choices =>
    cases choices with
    | nil => exact Or.inr (Or.inr rfl)
    | cons body rest =>
      cases hj : jsonLoads body with
      | error e =>
        have hres : evaluate_quality input_data generated_text
            (Except.ok (body :: rest)) jsonLoads = evaluation_error_result e := by
          simp [evaluate_quality, hj]
        rw [hres]
        exact Or.inr (Or.inr rfl)
      | ok j =>
        have hres : evaluate_quality input_data generated_text
            (Except.ok (body :: rest)) jsonLoads = j := by
          simp [evaluate_quality, hj]
        rw [hres]
        rcases hschema body j hj with h | h
        · exact Or.inl h
        · exact Or.inr (Or.inl h)

theorem evaluate_quality_consistency_range_witness :
    consistency_range (evaluate_quality sonyProduct "draft" (Except.ok ["reply-body"])
      (fun _ => Except.ok (Json.obj [("consistency_check", Json.str "Pass")]))) :=
  evaluate_quality_consistency_range sonyProduct "draft" (Except.ok ["reply-body"])
    (fun _ => Except.ok (Json.obj [("consistency_check", Json.str "Pass")]))
    (fun body j h => by cases h; exact Or.inl rfl)

/-- Claim C6: for every tone and every category outside the fixed four-entry
table — including "Other" — `get_system_prompt category tone` equals
`get_system_prompt "General" tone`, the "General" instruction followed by the
tone clause. -/
theorem get_system_prompt_fallback (category tone : String)
    (h1 : category ≠ "Electronics") (h2 : category ≠ "Fashion")
    (h3 : category ≠ "Home & Kitchen") (h4 : category ≠ "General") :
    get_system_prompt category tone = get_system_prompt "General" tone := by
  have hl : lookupKey category base_prompts = none := by
    simp [base_prompts, lookupKey, Ne.symm h1, Ne.symm h2, Ne.symm h3, Ne.symm h4]
  have hg : lookupKey "General" base_prompts = some general_prompt := by decide
  unfold get_system_prompt
  rw [hl, hg]
  rfl

theorem get_system_prompt_fallback_witness :
    get_system_prompt "Other" "Casual" = get_system_prompt "General" "Casual" :=
  get_system_prompt_fallback "Other" "Casual" (by decide) (by decide) (by decide) (by decide)

/-- Claim C7: `get_system_prompt` is a pure function of the pair
(category, tone) — equal argument pairs give equal outputs — and on
("Electronics", "Witty") the output contains the tech-copywriter instruction
text and ends with the tone clause, which mentions "Witty". -/
theorem get_system_prompt_electronics_witty :
    (∀ c₁ t₁ c₂ t₂ : String, c₁ = c₂ → t₁ = t₂ →
        get_system_prompt c₁ t₁ = get_system_prompt c₂ t₂) ∧
    strContains (get_system_prompt "Electronics" "Witty") "tech copywriter" = true ∧
    strEndsWith (get_system_prompt "Electronics" "Witty")
      " Write in a Witty tone. Do not invent features not listed." = true ∧
    strContains " Write in a Witty tone. Do not invent features not listed." "Witty" = true := by
  refine ⟨fun c₁ t₁ c₂ t₂ hc ht => ?_, by decide, by decide, by decide⟩
  rw [hc, ht]

theorem get_system_prompt_electronics_witty_witness :
    get_system_prompt "Electronics" "Witty" = get_system_prompt "Electronics" "Witty" ∧
    strContains (get_system_prompt "Electronics" "Witty") "tech copywriter" = true :=
  ⟨get_system_prompt_electronics_witty.1 "Electronics" "Witty" "Electronics" "Witty" rfl rfl,
   get_system_prompt_electronics_witty.2.1⟩

/-- Claim C8: for the record name="Sony WH-1000XM5", category="Electronics",
attributes Color/Noise Cancellation/Battery, tone="Professional", the
completion request built by `generate_description` carries a system prompt
containing "tech copywriter" and "Professional", and a user message
containing the three feature lines verbatim. -/
theorem generate_description_sony_request :
    (generate_description_request sonyProduct).messages
      = [("system", get_system_prompt "Electronics" "Professional"),
         ("user", gen_user_message sonyProduct)] ∧
    strContains (get_system_prompt "Electronics" "Professional") "tech copywriter" = true ∧
    strContains (get_system_prompt "Electronics" "Professional") "Professional" = true ∧
    strContains (gen_user_message sonyProduct) "- Color: Midnight Blue" = true ∧
    strContains (gen_user_message sonyProduct) "- Noise Cancellation: Active" = true ∧
    strContains (gen_user_message sonyProduct) "- Battery: 30 Hours" = true :=
  ⟨rfl, by decide, by decide, by decide, by decide, by decide⟩

/-- Claim C9: when the GROQ_API_KEY environment variable is absent at
startup, the script shows the missing-key error and halts before any
interaction: no API client is constructed and no completion request is ever
issued, whatever the button state. -/
theorem startup_missing_key (generate_btn : Bool) :
    (script_startup none).errorShown = some missing_key_error ∧
    (script_startup none).halted = true ∧
    (script_startup none).clientKey = none ∧
    completion_requests_issued none generate_btn = 0 :=
  ⟨rfl, rfl, rfl, rfl⟩

/-- Claim C10: the attribute parser is total and every key and value in its
result is whitespace-trimmed (each equals its own strip); a line whose first
colon is at position 0, or whose prefix before the colon is only whitespace,
still contributes an entry under the empty-string key. -/
theorem parse_attributes_trimmed :
    (∀ text k v, (k, v) ∈ parse_attributes text → pyStrip k = k ∧ pyStrip v = v) ∧
    parse_attributes ": Blue" = [("", "Blue")] ∧
    parse_attributes "   : Blue" = [("", "Blue")] := by
  refine ⟨fun text k v h => ?_, by decide, by decide⟩
  exact trimmed_foldl_parseStep (pySplitLines text) [] (by simp) (k, v) h

theorem parse_attributes_trimmed_witness :
    ("Color", "Blue") ∈ parse_attributes "Color: Blue" ∧
    (pyStrip "Color" = "Color" ∧ pyStrip "Blue" = "Blue") :=
  ⟨by decide, parse_attributes_trimmed.1 "Color: Blue" "Color" "Blue" (by decide)⟩
